import Mathlib

set_option linter.unusedVariables false

/-!
Verification development for the AI Newsletter Cloudflare Worker
(`src/index.ts`).

The worker is a single-pass pipeline: a cron-triggered `scheduled` handler
loads the active subscribers from a D1 table, and for each one fetches news
articles from NewsAPI per category, summarizes each article with Workers AI
(with a deterministic fallback), formats a plain-text newsletter, and sends
it through the Resend API.  This file gives a shallow embedding of those
functions.  Every external effect (the NewsAPI `fetch`, the `ai.run` model
call, the Resend `fetch`, the D1 query, `formData` parsing and the wall
clock) is modelled by an explicit outcome value or oracle function passed as
an argument; the embedded functions are otherwise direct transcriptions of
the TypeScript control flow.  A call that the source wraps in `try`/`catch`
is modelled by an outcome constructor for the throwing case, so that the
embedded function is total exactly because the source swallows the
exception.
-/

namespace Newsletter

/-- The `source: { name: string }` field of the `NewsArticle` interface. -/
structure Source where
  name : String
deriving DecidableEq, Repr

/-- The `NewsArticle` interface of `src/index.ts` (title, description, url,
publishedAt, source).  Note the interface has no `content`/body field; a
`null`/`undefined` description from the API is modelled as `""`, which is
what the truthiness checks of the code observe. -/
structure NewsArticle where
  title : String
  description : String
  url : String
  publishedAt : String
  source : Source
deriving DecidableEq, Repr

/-- Outcome of the NewsAPI request for one category inside
`fetchNewsForCategories`: the `fetch` (or subsequent `await`) threw, the
response was not `ok`, or a JSON body was obtained with a `status` string
and an optional `articles` array (`none` models a falsy/absent `articles`
field; `some []` models a present empty array, which is truthy in JS). -/
inductive FetchOutcome where
  | fetchError
  | notOk (status : Nat) (body : String)
  | okJson (status : String) (articles : Option (List NewsArticle))
deriving Repr

/-- One iteration of the category loop of `fetchNewsForCategories`: on a
thrown error or a non-`ok` response the category is skipped (`continue`);
on `data.status === "ok" && data.articles` every article is tagged with the
requested category (`{...article, category}`); otherwise nothing is added.
No article is inspected or filtered. -/
def fetchCategory (api : String → FetchOutcome) (category : String) :
    List (NewsArticle × String) :=
  match api category with
  | .fetchError => []
  | .notOk _ _ => []
  | .okJson status articles =>
    if status = "ok" then
      match articles with
      | some l => l.map (fun a => (a, category))
      | none => []
    else []

/-- The `for (const category of categories)` loop of
`fetchNewsForCategories`, accumulating `allArticles` by appending each
tagged articles of each category in order. -/
def fetchLoop (api : String → FetchOutcome) : List String → List (NewsArticle × String)
  | [] => []
  | c :: rest => fetchCategory api c ++ fetchLoop api rest

/-- `fetchNewsForCategories` of `src/index.ts`: run the per-category loop,
then `allArticles.slice(0, 10)`. -/
def fetchNewsForCategories (categories : List String) (api : String → FetchOutcome) :
    List (NewsArticle × String) :=
  (fetchLoop api categories).take 10

/-- Outcome of the `ai.run` call inside `summarizeArticleWithLlama`: the
call threw, or it returned a value whose `response` field is modelled by
`Option String` (`none` when `response` or `response.response` is
falsy/absent; the empty string, also falsy in JS, is kept separate as
`some ""` and handled by the embedded function itself). -/
inductive AiOutcome where
  | throws
  | resp (response : Option String)
deriving DecidableEq, Repr

/-- `createFallbackSummary` of `src/index.ts`:
`article.description || article.title`, then truncate to 197 characters
plus `"..."` when longer than 200. -/
def createFallbackSummary (article : NewsArticle) : String :=
  let description := if article.description = "" then article.title else article.description
  if 200 < description.length then description.take 197 ++ "..." else description

/-- The JS `String.prototype.trim` semantics (strip leading and trailing
whitespace), defined over the character list so that it reduces inside the
kernel (the byte-position `String.trim` of the core library is defined by
well-founded recursion and does not). -/
def jsTrim (s : String) : String :=
  String.mk (((s.data.dropWhile Char.isWhitespace).reverse.dropWhile
    Char.isWhitespace).reverse)

/-- `summarizeArticleWithLlama` of `src/index.ts`: on a thrown model call
or a falsy `response.response` the fallback summary is returned; otherwise
the raw model text is returned trimmed (`response.response.trim()`). -/
def summarizeArticleWithLlama (article : NewsArticle) (ai : AiOutcome) : String :=
  match ai with
  | .throws => createFallbackSummary article
  | .resp none => createFallbackSummary article
  | .resp (some r) => if r = "" then createFallbackSummary article else jsTrim r

/-- The elements of the `summaries` array built in `processUserNewsletter`:
`article`, `summary`, and `category` (the tag, or `general` when falsy). -/
structure SummarizedItem where
  article : NewsArticle
  summary : String
  category : String
deriving DecidableEq, Repr

/-- One step of building the `byCategory` object in `formatNewsletter`:
append the item to the bucket of its category, creating the bucket on first
sight.  A JS object with non-numeric string keys enumerates them in
insertion order, so the object is modelled as an insertion-ordered
association list. -/
def insertByCategory (acc : List (String × List SummarizedItem)) (item : SummarizedItem) :
    List (String × List SummarizedItem) :=
  if acc.any (fun p => p.1 = item.category) then
    acc.map (fun p => if p.1 = item.category then (p.1, p.2 ++ [item]) else p)
  else
    acc ++ [(item.category, [item])]

/-- The `byCategory` grouping of `formatNewsletter`: fold the items into an
insertion-ordered map from category to bucket. -/
def groupByCategory (summaries : List SummarizedItem) :
    List (String × List SummarizedItem) :=
  summaries.foldl insertByCategory []

/-- The literal separator string (single-quoted in the source) of `src/index.ts` line 231 (the
source file stores a three-character mojibake sequence, reproduced here
exactly), repeated 40 times. -/
def dashRule : String := String.join (List.replicate 40 "‚îÄ")

/-- One numbered article entry of a newsletter section (`formatNewsletter`
inner `forEach`, `index` starting at 0 per section). -/
def renderArticleEntry (idx : Nat) (item : SummarizedItem) : String :=
  toString (idx + 1) ++ ". **" ++ item.article.title ++ "**\n" ++
  "   " ++ item.summary ++ "\n" ++
  "   Source: " ++ item.article.source.name ++ "\n" ++
  "   Read more: " ++ item.article.url ++ "\n\n"

/-- One category section of the newsletter: header line with the
upper-cased category, the 40-fold separator, then the numbered entries. -/
def renderSection (category : String) (items : List SummarizedItem) : String :=
  "üì∞ " ++ category.toUpper ++ "\n" ++ dashRule ++ "\n\n" ++
  String.join (items.enum.map (fun p => renderArticleEntry p.1 p.2))

/-- `formatNewsletter` of `src/index.ts`.  The source computes
`new Date().toDateString()` itself; that clock read is the one effect of
the function, made explicit here as the `date` argument.  The `email`
parameter is declared by the source but never used in the body.  All
literal text (including the mojibake emoji bytes the source file actually
contains) is reproduced exactly. -/
def formatNewsletter (date : String) (email : String) (summaries : List SummarizedItem) :
    String :=
  "ü§ñ Your AI Newsletter - " ++ date ++ "\n\n" ++
  "Hello! Here\x27s your personalized news digest:\n\n" ++
  String.join ((groupByCategory summaries).map (fun p => renderSection p.1 p.2)) ++
  "\n" ++ String.join (List.replicate 31 "‚îÄ") ++ "\n" ++
  "Generated with ‚ù§Ô∏è by AI Newsletter\n" ++
  "Powered by Cloudflare Workers & Resend\n"

/-- Outcome of the Resend `fetch` in `sendEmailWithResend`: the `fetch`
threw; or a non-`ok` response whose body text is `some s` (read and logged)
or `none` (the `text()` call itself threw; either way the `catch` yields
the same result); or an `ok` response whose `json()` call parses or
throws. -/
inductive ResendOutcome where
  | fetchThrows
  | errorResp (status : Nat) (bodyText : Option String)
  | okResp (jsonParses : Bool)
deriving DecidableEq, Repr

/-- `sendEmailWithResend` of `src/index.ts`.  Returns
`(success, network call made)`: the first component is the boolean the
function returns, the second records whether the Resend `fetch` was
reached.  `env.RESEND_API_KEY` is modelled as a `String` whose falsy
(absent or empty) value is `""`.  The recipient (`to` in the source, a
reserved token here)/`subject`/`content` arguments build the payload but
do not steer control flow. -/
def sendEmailWithResend (recipient subject content : String) (apiKey : String)
    (net : ResendOutcome) : Bool × Bool :=
  if apiKey = "" then (false, false)
  else
    match net with
    | .fetchThrows => (false, true)
    | .errorResp _ _ => (false, true)
    | .okResp jsonParses => if jsonParses then (true, true) else (false, true)

/-- Modelled from the spec: the Delivery Adapter contract of section 4.4 —
missing credential means immediate failure with no network call; a
non-success response, a network error or a parse error mean failure; the
send succeeds exactly on a successful, parseable API response. -/
def deliveryContract (apiKey : String) (net : ResendOutcome) : Bool × Bool :=
  if apiKey = "" then (false, false)
  else ((match net with | .okResp true => true | _ => false), true)

/-- A row of the `users` table (schema: `id`, `email`, `categories`,
`created_at`, `active`).  D1 results are consumed as `any`; `categories`
is modelled as `Option String` so that a malformed row (a null field) can
exercise the exception path of `user.categories.split` on the comma. -/
structure UserRow where
  id : Nat
  email : String
  categories : Option String
  active : Bool
deriving DecidableEq, Repr

/-- The external world of one scheduled run: the clock date, a NewsAPI
oracle (per subscriber email and category), a Workers AI oracle (per email
and article), the Resend credential and a Resend oracle (per email). -/
structure RunEnv where
  date : String
  newsApi : String → String → FetchOutcome
  ai : String → NewsArticle → AiOutcome
  resendKey : String
  resend : String → ResendOutcome

/-- What `processUserNewsletter` did for one subscriber: an exception
caught at its `catch` boundary, a skip because zero articles were fetched,
or a send attempt with its boolean result and whether the Resend network
call was made. -/
structure UserReport where
  caught : Option String := none
  skipped : Bool := false
  sent : Option Bool := none
  networkCalled : Bool := false
deriving DecidableEq, Repr

/-- The JS `split(",")` semantics (split on every comma, keeping empty
segments; the empty string yields one empty segment), defined over the
character list so that it reduces inside the kernel. -/
def splitCommaAux : List Char → List Char → List String
  | [], acc => [String.mk acc.reverse]
  | c :: rest, acc =>
    if c = ',' then String.mk acc.reverse :: splitCommaAux rest []
    else splitCommaAux rest (c :: acc)

/-- `categories.split(",")` of `processUserNewsletter`. -/
def jsSplitComma (s : String) : List String := splitCommaAux s.data []

/-- The body of the `try` block of `processUserNewsletter`: split the
stored categories (throwing on a malformed null field), fetch, return
early on zero articles, summarize each article (defaulting a falsy
category tag to `general`), format, and send. -/
def processUserBody (env : RunEnv) (email : String) (categories : Option String) :
    Except String UserReport :=
  match categories with
  | none => .error "TypeError: user.categories is null"
  | some catsString =>
    let categoryList := (jsSplitComma catsString).map (fun c => jsTrim c)
    let articles := fetchNewsForCategories categoryList (env.newsApi email)
    if articles.length = 0 then .ok { skipped := true }
    else
      let summaries := articles.map (fun p =>
        { article := p.1
          summary := summarizeArticleWithLlama p.1 (env.ai email p.1)
          category := if p.2 = "" then "general" else p.2 : SummarizedItem })
      let newsletter := formatNewsletter env.date email summaries
      let result := sendEmailWithResend email
        ("ü§ñ Your AI Newsletter - " ++ env.date) newsletter
        env.resendKey (env.resend email)
      .ok { sent := some result.1, networkCalled := result.2 }

/-- `processUserNewsletter` of `src/index.ts`: the whole body is wrapped in
`try`/`catch`, so any exception is caught here and only logged — the
function itself never throws (it is total and returns a report). -/
def processUserNewsletter (env : RunEnv) (user : UserRow) : UserReport :=
  match processUserBody env user.email user.categories with
  | .ok r => r
  | .error e => { caught := some e }

/-- The D1 query `SELECT * FROM users WHERE active = 1` of the `scheduled`
handler, modelled as the standard filter semantics of that WHERE clause
over the table rows. -/
def selectActiveUsers (table : List UserRow) : List UserRow :=
  table.filter (fun u => u.active)

/-- Outcome of the D1 `prepare(...).all()` call in `scheduled`: the query
threw, or it returned the result rows. -/
inductive DbOutcome where
  | throws (e : String)
  | ok
deriving Repr

/-- What one scheduled run did: the fatal error caught by the own `catch` of the handler (the `console.error` cron-failed path), if any, and the
ordered list of subscribers processed, each with its report. -/
structure RunResult where
  fatal : Option String := none
  processed : List (String × UserReport) := []
deriving DecidableEq, Repr

/-- The `scheduled` handler of `src/index.ts`: query the active
subscribers (a thrown query is caught by the `catch` of the handler, producing
a fatal log and nothing else), return early when none, otherwise run
`processUserNewsletter` for each row in order.  The early return on an
empty result list yields the same `RunResult` as mapping over the empty
list. -/
def scheduledRun (table : List UserRow) (db : DbOutcome) (env : RunEnv) : RunResult :=
  match db with
  | .throws e => { fatal := some e }
  | .ok =>
    let results := selectActiveUsers table
    { processed := results.map (fun u => (u.email, processUserNewsletter env u)) }

/-- Number of subscribers for whom the run reached the Resend network
call. -/
def deliveryCalls (r : RunResult) : Nat :=
  (r.processed.filter (fun p => p.2.networkCalled)).length

/-- Outcome of `request.formData()` in `handleSubscribe`: parsing threw,
or it yielded `formData.get` of `email` (`none` for an absent field, and the
empty string is equally falsy under the `!email` check) and
`formData.getAll` of `categories`. -/
inductive FormOutcome where
  | throws
  | parsed (email : Option String) (categories : List String)
deriving Repr

/-- Outcome of the `env.DB.prepare(...).run()` upsert in
`handleSubscribe`. -/
inductive DbRunOutcome where
  | throws
  | ok
deriving Repr

/-- The observable result of `handleSubscribe`: the HTTP status of the
response and whether a database statement was executed. -/
structure SubscribeResult where
  status : Nat
  dbExecuted : Bool
deriving DecidableEq, Repr

/-- `handleSubscribe` of `src/index.ts` (lines 104-156): a thrown
`formData()` is caught by the outer `catch` (500, nothing stored);
`!email || selectedCategories.length === 0` returns 400 before any
database statement; otherwise the upsert runs, its own `catch` mapping a
thrown statement to 500 and success to the 200 HTML page. -/
def handleSubscribe (form : FormOutcome) (db : DbRunOutcome) : SubscribeResult :=
  match form with
  | .throws => { status := 500, dbExecuted := false }
  | .parsed email categories =>
    if email.getD "" = "" ∨ categories.length = 0 then
      { status := 400, dbExecuted := false }
    else
      match db with
      | .throws => { status := 500, dbExecuted := true }
      | .ok => { status := 200, dbExecuted := true }

/-- Specification-side description of the grouping order: the distinct
categories of the items in order of first appearance. -/
def firstSeenCategories (summaries : List SummarizedItem) : List String :=
  summaries.foldl (fun ks item => if item.category ∈ ks then ks else ks ++ [item.category]) []

/-- Modelled from the spec: the "first sentence-like substring (>20 chars)
of the body" clause of the section 4.2 fallback rule (the `NewsArticle`
interface of the repository has no body/content field, so the body is supplied
separately and is empty for articles of this code). -/
def firstSentenceLike (body : String) : Option String :=
  let sentence := (body.splitOn ". ").headD ""
  if 20 < sentence.length then some sentence else none

/-- Modelled from the spec: the deterministic rule-based fallback summary
of section 4.2 — prefer the description when non-empty and not the
"[Removed]" sentinel, else the first sentence-like substring of the body,
else the title; and prefix the result with the source name for
attribution. -/
def specFallbackSummary (article : NewsArticle) (body : String) : String :=
  let base :=
    if article.description ≠ "" ∧ article.description ≠ "[Removed]" then article.description
    else
      match firstSentenceLike body with
      | some s => s
      | none => article.title
  article.source.name ++ ": " ++ base

/-- The model path failed in the sense of the spec: the `ai.run` call
threw, or its result had no usable `response` field, or that field was the
empty string. -/
def aiFailed (ai : AiOutcome) : Prop :=
  ai = .throws ∨ ai = .resp none ∨ ai = .resp (some "")


/-! Concrete example values used by witnesses and counterexamples. -/

/-- An article with a title only (empty description), as delivered by the
sample oracles below. -/
def titleOnlyArticle : NewsArticle :=
  { title := "Quantum chips announced", description := "",
    url := "https://news.example/q", publishedAt := "2025-10-06",
    source := { name := "Example News" } }

/-- An article whose description is the NewsAPI removed-content
sentinel. -/
def removedArticle : NewsArticle :=
  { title := "Story title", description := "[Removed]",
    url := "https://news.example/s", publishedAt := "2024-01-01",
    source := { name := "Reuters" } }

/-- A NewsAPI oracle answering the technology category with a single
successful article that has an empty description, and failing every other
category. -/
def newsApiStub : String → FetchOutcome := fun category =>
  if category = "technology" then .okJson "ok" (some [titleOnlyArticle])
  else .fetchError

/-- The first of two example technology articles. -/
def techArticle₁ : NewsArticle :=
  { title := "T1", description := "D1", url := "https://u1",
    publishedAt := "p1", source := { name := "S1" } }

/-- The second of two example technology articles. -/
def techArticle₂ : NewsArticle :=
  { title := "T2", description := "D2", url := "https://u2",
    publishedAt := "p2", source := { name := "S2" } }

/-- A pair of summarized technology items in arrival order. -/
def exampleItems : List SummarizedItem :=
  [ { article := techArticle₁, summary := "First summary.", category := "technology" },
    { article := techArticle₂, summary := "Second summary.", category := "technology" } ]

/-! Helper lemmas. -/

/-- A string is non-empty exactly when its length is positive. -/
theorem length_pos_of_ne_empty (s : String) (h : s ≠ "") : 0 < s.length := by
  rcases s with ⟨data⟩
  cases data with
  | nil => exact absurd rfl h
  | cons c cs => simp [String.length]

/-- The fallback summary is non-empty whenever the article has a title or a
description. -/
theorem createFallbackSummary_length_pos (article : NewsArticle)
    (h : article.title ≠ "" ∨ article.description ≠ "") :
    0 < (createFallbackSummary article).length := by
  unfold createFallbackSummary
  by_cases hdesc : article.description = ""
  · have htitle : article.title ≠ "" := by
      rcases h with h | h
      · exact h
      · exact absurd hdesc h
    simp only [hdesc, if_true]
    by_cases hlen : 200 < article.title.length
    · have h3 : ("..." : String).length = 3 := rfl
      simp only [hlen, if_true, String.length_append]
      omega
    · simp only [hlen, if_false]
      exact length_pos_of_ne_empty _ htitle
  · simp only [hdesc, if_false]
    by_cases hlen : 200 < article.description.length
    · have h3 : ("..." : String).length = 3 := rfl
      simp only [hlen, if_true, String.length_append]
      omega
    · simp only [hlen, if_false]
      exact length_pos_of_ne_empty _ hdesc

/-! Claim C1.  The claim says `summarizeArticleWithLlama` never throws and
returns a non-empty string for every article, regardless of the model
outcome.  The code refutes it: a model response that is non-empty but
whitespace-only passes the truthiness check and is returned trimmed, i.e.
empty (counterexample below).  The amended claim adds that the model must
not return a whitespace-only non-empty string (and that the article carries
a title or a description, so the fallback has text to use). -/

/-- C1 counterexample: for an article with only a title, a model call that
returns the one-blank string `" "` makes `summarizeArticleWithLlama` return
the empty string, so the summarizer output is not always non-empty. -/
theorem summarize_whitespace_counterexample :
    summarizeArticleWithLlama titleOnlyArticle (.resp (some " ")) = "" := by decide

/-- C1 (amended): `summarizeArticleWithLlama` is total (it catches the
model exception internally), and it returns a non-empty string whenever
the article has a non-empty title or description and the model does not
return a non-empty whitespace-only string. -/
theorem summarize_returns_nonempty (article : NewsArticle) (ai : AiOutcome)
    (harticle : article.title ≠ "" ∨ article.description ≠ "")
    (hai : ∀ r, ai = .resp (some r) → r ≠ "" → 0 < (jsTrim r).length) :
    0 < (summarizeArticleWithLlama article ai).length := by
  match ai with
  | .throws => exact createFallbackSummary_length_pos article harticle
  | .resp none => exact createFallbackSummary_length_pos article harticle
  | .resp (some r) =>
    by_cases hr : r = ""
    · simp only [summarizeArticleWithLlama, hr, if_true]
      exact createFallbackSummary_length_pos article harticle
    · simp only [summarizeArticleWithLlama, hr, if_false]
      exact hai r rfl hr

/-- C1 witness: the amended theorem applied to the title-only article and a
thrown model call; the summary is the fallback (the title), of positive
length. -/
theorem summarize_returns_nonempty_witness :
    (titleOnlyArticle.title ≠ "" ∨ titleOnlyArticle.description ≠ "") ∧
    0 < (summarizeArticleWithLlama titleOnlyArticle .throws).length :=
  ⟨Or.inl (by decide),
   summarize_returns_nonempty titleOnlyArticle .throws (Or.inl (by decide))
     (fun r h _ => nomatch h)⟩

/-! Claim C2.  The claim says that on model failure the summary follows the
rich fallback rule of the spec (skip the removed sentinel, extract a first
sentence, fall back to the title, prefix the source name).  The code
refutes it: `createFallbackSummary` is only `description || title` with
truncation — it happily returns the `[Removed]` sentinel and never prefixes
the source name.  The amended claim states the actual rule. -/

/-- C2 counterexample: for an article whose description is the sentinel,
the summary on model failure is the sentinel itself, while the fallback
rule claimed by the spec never returns it (it would produce
`Reuters: Story title`). -/
theorem fallback_sentinel_counterexample :
    summarizeArticleWithLlama removedArticle .throws = "[Removed]" ∧
    specFallbackSummary removedArticle "" ≠ "[Removed]" := by decide

/-- C2 (amended): when the model path fails (throw, missing field, or
empty string), the returned summary equals `createFallbackSummary`: the
description when non-empty, else the title, truncated to 197 characters
plus an ellipsis when longer than 200 — with no sentinel check, no
sentence extraction and no source-name prefix. -/
theorem summarize_fallback_on_model_failure (article : NewsArticle) (ai : AiOutcome)
    (h : aiFailed ai) :
    summarizeArticleWithLlama article ai = createFallbackSummary article := by
  rcases h with h | h | h <;> subst h <;> rfl

/-- C2 witness: the amended theorem applied to the sentinel article and a
thrown model call. -/
theorem summarize_fallback_witness :
    aiFailed .throws ∧
    summarizeArticleWithLlama removedArticle .throws = createFallbackSummary removedArticle :=
  ⟨Or.inl rfl, summarize_fallback_on_model_failure removedArticle .throws (Or.inl rfl)⟩

/-! Claim C5.  The claim says digest composition is deterministic and pure
with no external dependence.  The code refutes the "no external
dependence" part: `formatNewsletter` reads the wall clock
(`new Date().toDateString()`) and puts the date in the header, so two
calls with identical recipient and items differ across dates.  The
amended claim: composition is deterministic given the clock date — the
output is a pure function of the date and the item sequence alone (the
recipient parameter does not influence the output at all). -/

/-- C5 counterexample: the same recipient and the same item sequence
produce different bytes on different clock dates. -/
theorem format_differs_across_dates :
    formatNewsletter "Mon Oct 06 2025" "a@x.com" exampleItems ≠
      formatNewsletter "Tue Oct 07 2025" "a@x.com" exampleItems := by decide

/-- C5 (amended): with the clock date fixed, `formatNewsletter` is a pure
function of the date and the item sequence: the recipient argument never
changes the output, and repeated calls with the same date and items are
byte-identical. -/
theorem format_deterministic_given_date (date email₁ email₂ : String)
    (summaries : List SummarizedItem) :
    formatNewsletter date email₁ summaries = formatNewsletter date email₂ summaries := rfl

/-! Claim C6: a thrown subscriber query aborts the whole run. -/

/-- C6: when the D1 select of active subscribers throws, the scheduled
handler catches the error itself (it does not propagate: `scheduledRun` is
total and yields a result), records it as the fatal log, processes zero
subscribers and makes zero delivery calls. -/
theorem run_aborts_on_store_failure (table : List UserRow) (env : RunEnv) (e : String) :
    scheduledRun table (.throws e) env = { fatal := some e, processed := [] } ∧
    deliveryCalls (scheduledRun table (.throws e) env) = 0 :=
  ⟨rfl, rfl⟩

/-! Claim C7: the delivery adapter never throws and returns a boolean per
the spec failure table. -/

/-- C7: `sendEmailWithResend` is total (every throwing path is caught) and
its result agrees with the delivery contract of the spec in every case:
an empty/missing credential returns failure without a network call, a
thrown fetch or non-success response or unparseable body returns failure,
and success is returned exactly on a successful parseable response. -/
theorem send_email_matches_delivery_contract (recipient subject content apiKey : String)
    (net : ResendOutcome) :
    sendEmailWithResend recipient subject content apiKey net = deliveryContract apiKey net := by
  unfold sendEmailWithResend deliveryContract
  by_cases h : apiKey = ""
  · simp [h]
  · simp only [h, if_false]
    cases net with
    | fetchThrows => rfl
    | errorResp s b => rfl
    | okResp jsonParses => cases jsonParses <;> rfl

/-! Claim C10: invalid subscription input is rejected with 400 before any
database statement. -/

/-- C10: when the parsed form has a missing/empty email or an empty
category list, `handleSubscribe` returns status 400 and executes no
database statement (the store is untouched), for every database
outcome. -/
theorem subscribe_rejects_invalid_before_db (email : Option String)
    (categories : List String) (db : DbRunOutcome)
    (h : email.getD "" = "" ∨ categories = []) :
    handleSubscribe (.parsed email categories) db =
      { status := 400, dbExecuted := false } := by
  unfold handleSubscribe
  rcases h with h | h
  · simp [h]
  · subst h; simp

/-- C10 witness: a form with no email and no categories is rejected with
400 and no database statement. -/
theorem subscribe_rejects_invalid_witness :
    ((none : Option String).getD "" = "" ∨ ([] : List String) = []) ∧
    handleSubscribe (.parsed none []) .ok = { status := 400, dbExecuted := false } :=
  ⟨Or.inl rfl, subscribe_rejects_invalid_before_db none [] .ok (Or.inl rfl)⟩


/-! Claim C3: per-subscriber failure isolation in the scheduled run. -/

/-- C3: in one scheduled run, every active subscriber is processed, in
table order, whatever the external world does — the quantification over
`table` includes rows whose processing throws (malformed categories,
caught at the `processUserNewsletter` boundary) and over `env` includes
every pattern of fetch, model and delivery failures.  Hence a failure or
exception in the processing of subscriber N never prevents subscribers
N+1, N+2, ... from being processed, and each entry is computed by
`processUserNewsletter` from that subscriber alone. -/
theorem run_isolates_subscriber_failures (table : List UserRow) (env : RunEnv) :
    (scheduledRun table .ok env).processed.map Prod.fst =
        (selectActiveUsers table).map UserRow.email ∧
    ∀ u ∈ selectActiveUsers table,
      (u.email, processUserNewsletter env u) ∈ (scheduledRun table .ok env).processed := by
  constructor
  · simp [scheduledRun, List.map_map]
  · intro u hu
    simp only [scheduledRun]
    exact List.mem_map_of_mem _ hu

/-! Claim C4.  The claim says `fetchNewsForCategories` filters out
articles with empty or sentinel content.  The code refutes it: the fetch
loop tags and accumulates every article of every successful response and
only truncates to ten — no article text is ever inspected
(counterexample: an article with an empty description flows through).
The amended claim states what actually holds: every returned article
comes unmodified from a successful `ok` response of one of the requested
categories, tagged with that category, with no content-based
exclusion. -/

/-- C4 counterexample: an article with an empty description (no usable
text) is returned by `fetchNewsForCategories` and thus reaches
summarization, contradicting the claimed filter. -/
theorem fetch_no_filter_counterexample :
    (titleOnlyArticle, "technology") ∈ fetchNewsForCategories ["technology"] newsApiStub ∧
    titleOnlyArticle.description = "" := by decide

/-- C4 (amended): `fetchNewsForCategories` applies no content filter —
each element of its result is exactly an article of the `ok` response of
one requested category, tagged with that category, whatever its
description says. -/
theorem fetch_article_provenance (categories : List String)
    (api : String → FetchOutcome) (p : NewsArticle × String)
    (hp : p ∈ fetchNewsForCategories categories api) :
    ∃ c ∈ categories, ∃ l, api c = .okJson "ok" (some l) ∧ p.1 ∈ l ∧ p.2 = c := by
  have hp' : p ∈ fetchLoop api categories :=
    List.take_subset 10 (fetchLoop api categories) hp
  clear hp
  induction categories with
  | nil => simp [fetchLoop] at hp'
  | cons c rest ih =>
    rw [fetchLoop, List.mem_append] at hp'
    rcases hp' with h | h
    · unfold fetchCategory at h
      cases hapi : api c with
      | fetchError => rw [hapi] at h; simp at h
      | notOk s b => rw [hapi] at h; simp at h
      | okJson status articles =>
        rw [hapi] at h
        by_cases hst : status = "ok"
        · subst hst
          cases articles with
          | none => simp at h
          | some l =>
            simp only [if_true, List.mem_map] at h
            obtain ⟨a, ha, hpa⟩ := h
            refine ⟨c, List.mem_cons_self c rest, l, ?_, ?_, ?_⟩
            · exact hapi
            · rw [← hpa]; exact ha
            · rw [← hpa]
        · simp [hst] at h
    · obtain ⟨c', hc', l, hl, h1, h2⟩ := ih h
      exact ⟨c', List.mem_cons_of_mem c hc', l, hl, h1, h2⟩

/-- C4 witness: the provenance theorem applied to the concrete stub API,
whose one `ok` response carries the empty-description article. -/
theorem fetch_article_provenance_witness :
    (titleOnlyArticle, "technology") ∈ fetchNewsForCategories ["technology"] newsApiStub ∧
    ∃ c ∈ ["technology"], ∃ l, newsApiStub c = .okJson "ok" (some l) ∧
      (titleOnlyArticle, "technology").1 ∈ l ∧ (titleOnlyArticle, "technology").2 = c :=
  ⟨by decide,
   fetch_article_provenance ["technology"] newsApiStub (titleOnlyArticle, "technology")
     (by decide)⟩

/-! Claim C8: inactive subscribers are never processed. -/

/-- C8: every processed entry of one run originates in an active table
row — the run loads only `active = 1` rows, so for a subscriber record
with `active = false` no fetch, summarization or delivery is ever
performed on its behalf. -/
theorem only_active_subscribers_processed (table : List UserRow) (env : RunEnv)
    (entry : String × UserReport)
    (h : entry ∈ (scheduledRun table .ok env).processed) :
    ∃ u ∈ table, u.active = true ∧ entry.1 = u.email ∧
      entry.2 = processUserNewsletter env u := by
  simp only [scheduledRun, List.mem_map, selectActiveUsers, List.mem_filter] at h
  obtain ⟨u, ⟨hu, hact⟩, hentry⟩ := h
  exact ⟨u, hu, by simpa using hact, by rw [← hentry], by rw [← hentry]⟩

/-- A one-row table with an active subscriber, for the C8 witness. -/
def demoTable : List UserRow :=
  [{ id := 1, email := "a@x.com", categories := some "technology", active := true }]

/-- A degenerate external world: every fetch fails, the model throws, the
delivery credential is absent and the delivery fetch throws. -/
def runEnvStub : RunEnv :=
  { date := "Mon Oct 06 2025", newsApi := fun _ _ => .fetchError,
    ai := fun _ _ => .throws, resendKey := "", resend := fun _ => .fetchThrows }

/-- C8 witness: the theorem applied to the one concrete processed entry of
a one-row table (the subscriber is skipped for lack of articles, hence the
report). -/
theorem only_active_subscribers_processed_witness :
    (("a@x.com", { skipped := true : UserReport}) ∈
        (scheduledRun demoTable .ok runEnvStub).processed) ∧
    ∃ u ∈ demoTable, u.active = true ∧
      ("a@x.com", { skipped := true : UserReport}).1 = u.email ∧
      ("a@x.com", { skipped := true : UserReport}).2 = processUserNewsletter runEnvStub u :=
  ⟨by decide,
   only_active_subscribers_processed demoTable runEnvStub
     ("a@x.com", { skipped := true : UserReport}) (by decide)⟩


/-! Claim C9: grouping order of the digest composer. -/

/-- Folding one more item into the first-seen category accumulator either
leaves the key list unchanged (category already present) or appends the new
category at the end. -/
theorem firstSeen_append (l : List SummarizedItem) (x : SummarizedItem) :
    firstSeenCategories (l ++ [x]) =
      if x.category ∈ firstSeenCategories l then firstSeenCategories l
      else firstSeenCategories l ++ [x.category] := by
  simp [firstSeenCategories, List.foldl_append]

/-- Membership in the first-seen accumulator, generalized over the initial
key list. -/
theorem mem_firstSeen_aux (l : List SummarizedItem) (ks : List String) (c : String) :
    c ∈ l.foldl (fun ks item => if item.category ∈ ks then ks else ks ++ [item.category]) ks ↔
      c ∈ ks ∨ ∃ item ∈ l, item.category = c := by
  induction l generalizing ks with
  | nil => simp
  | cons a rest ih =>
    rw [List.foldl_cons, ih]
    by_cases h : a.category ∈ ks
    · simp only [h, if_true, List.mem_cons]
      aesop
    · simp only [h, if_false, List.mem_append, List.mem_singleton]
      aesop

/-- A category is a first-seen key exactly when some item carries it. -/
theorem mem_firstSeenCategories (l : List SummarizedItem) (c : String) :
    c ∈ firstSeenCategories l ↔ ∃ item ∈ l, item.category = c := by
  rw [firstSeenCategories, mem_firstSeen_aux]
  simp

/-- C9: the `byCategory` grouping of `formatNewsletter` equals, for every
ordered item sequence, the map that lists the categories in first-seen
order and pairs each with exactly the items of that category in arrival
order (a filter of the input, hence no re-sorting).  In particular two
technology articles yield the single key `technology` (rendered as one
`TECHNOLOGY` section) with both items in fetch order. -/
theorem group_preserves_first_seen_and_arrival_order (summaries : List SummarizedItem) :
    groupByCategory summaries =
      (firstSeenCategories summaries).map
        (fun c => (c, summaries.filter (fun item => item.category = c))) := by
  induction summaries using List.reverseRecOn with
  | nil => rfl
  | append_singleton l x ih =>
    rw [groupByCategory, List.foldl_append, List.foldl_cons, List.foldl_nil]
    change insertByCategory (groupByCategory l) x = _
    rw [ih, firstSeen_append, insertByCategory]
    by_cases hmem : x.category ∈ firstSeenCategories l
    · have hany : ((firstSeenCategories l).map
          (fun c => (c, l.filter (fun item => item.category = c)))).any
            (fun p => p.1 = x.category) = true := by
        rw [List.any_eq_true]
        exact ⟨(x.category, l.filter (fun item => item.category = x.category)),
          List.mem_map_of_mem _ hmem, by simp⟩
      rw [if_pos hany, if_pos hmem, List.map_map]
      apply List.map_congr_left
      intro c hc
      by_cases hcx : c = x.category
      · subst hcx
        simp [List.filter_append]
      · have hxc : ¬ x.category = c := fun hh => hcx hh.symm
        simp [Function.comp, hcx, hxc, List.filter_append]
    · have hany : ((firstSeenCategories l).map
          (fun c => (c, l.filter (fun item => item.category = c)))).any
            (fun p => p.1 = x.category) = false := by
        rw [List.any_eq_false]
        intro q hq
        obtain ⟨c, hc, rfl⟩ := List.mem_map.mp hq
        simp only [decide_eq_true_eq]
        intro hcontra
        exact hmem (hcontra ▸ hc)
      rw [if_neg (by simp [hany]), if_neg hmem, List.map_append]
      have hnil : l.filter (fun item => item.category = x.category) = [] := by
        rw [List.filter_eq_nil_iff]
        intro a ha hcontra
        exact hmem ((mem_firstSeenCategories l x.category).mpr
          ⟨a, ha, of_decide_eq_true hcontra⟩)
      congr 1
      · apply List.map_congr_left
        intro c hc
        have hxc : ¬ x.category = c := by
          intro hh
          exact hmem (hh ▸ hc)
        simp [hxc, List.filter_append]
      · simp [hnil, List.filter_append]

end Newsletter
